import Mathlib

/-!
Shallow embedding of the maxstorage_ultimate integration
(`custom_components/maxstorage_ultimate/client.py`, `coordinator.py`,
`binary_sensor.py`).

The client's mutable attributes become an explicit `ClientState`; each
network interaction (login POST, data POST, DNS lookup, ARP/MAC probe)
becomes an explicit environment value passed to the function that performs
it; Python exceptions become `Except` results; `time.time()` becomes an
explicit integer `now` argument (only the ordered-group structure of timestamps matters to the verified properties).  The functions also return the list of
network requests they issue, so ordering claims about authentication and
data requests can be stated.
-/

namespace MaxStorage

/-- Python `str.strip()`: drop leading and trailing whitespace. -/
def pyStrip (s : String) : String :=
  String.mk (((s.data.dropWhile Char.isWhitespace).reverse.dropWhile
    Char.isWhitespace).reverse)

/-- Python `str.replace(":", "")`: remove every colon. -/
def removeColons (s : String) : String :=
  String.mk (s.data.filter (fun c => c ≠ ':'))

/-- The exception classes raised by `client.py`.  `DataParserError`,
`AuthenticationFailedError`, `InvalidHostError` and `HTTPError` are the
classes defined at the bottom of `client.py`; `valueError` is Python's
builtin `ValueError`, raised in `get_data` when the body is not JSON.
Each carries the message string it is constructed with (the parts of the
source f-strings that interpolate a response body are omitted, since the
model does not render bodies as text). -/
inductive ClientError
  | dataParserError (msg : String)
  | authenticationFailedError (msg : String)
  | invalidHostError (msg : String)
  | httpError (msg : String)
  | valueError (msg : String)
deriving DecidableEq, Repr

/-- Whether an error value is an instance of the `DataParserError` class. -/
def isDataParserError : ClientError → Bool
  | .dataParserError _ => true
  | _ => false

/-- `str(e)` for the modelled exceptions: the message they carry. -/
def clientErrorMsg : ClientError → String
  | .dataParserError m => m
  | .authenticationFailedError m => m
  | .invalidHostError m => m
  | .httpError m => m
  | .valueError m => m

instance {ε α : Type} [DecidableEq ε] [DecidableEq α] : DecidableEq (Except ε α) :=
  fun x y =>
  match x, y with
  | .ok a, .ok b => if h : a = b then .isTrue (by simp [h]) else .isFalse (by simp [h])
  | .error a, .error b =>
      if h : a = b then .isTrue (by simp [h]) else .isFalse (by simp [h])
  | .ok _, .error _ => .isFalse (by simp)
  | .error _, .ok _ => .isFalse (by simp)

/-- The node following a `b`/`div` element in the login page
(`element.next_sibling` in `_read_device_info`): either a bare text node
(a `NavigableString`, which has no tag name and is truthy iff non-empty)
or a tag node (which has a name). -/
inductive SiblingNode
  | textNode (s : String)
  | tagNode
deriving DecidableEq, Repr

/-- The next sibling *tag* of an element (`element.find_next_sibling()`):
its extracted text (`get_text(strip=True)`), whether it is truthy (a
BeautifulSoup tag is truthy iff it has children), and whether it contains
a `b` descendant (`sibling.find(["b"])`). -/
structure SiblingTag where
  text : String
  truthy : Bool
  hasBold : Bool
deriving DecidableEq, Repr

/-- One candidate key element of the login page: one of the `b`/`div` tags
returned by `soup.find_all(["b", "div"])`, with the sibling information
`_read_device_info` inspects. -/
structure PageElement where
  text : String
  nextSibling : Option SiblingNode
  nextSiblingTag : Option SiblingTag
deriving DecidableEq, Repr

/-- The recognized device-identity keys, in the order listed in
`_read_device_info`. -/
def deviceInfoKeys : List String :=
  ["Anlagenname", "MasterController-Nummer", "Firmware-Version",
   "Hardware-Version", "Ident"]

/-- The normalized text of an element:
`element.get_text().strip().replace(":", "")`. -/
def elementKey (e : PageElement) : String :=
  removeColons (pyStrip e.text)

/-- Python dict assignment `d[k] = v`: update the value in place if the key
exists, otherwise append the pair. -/
def upsert (di : List (String × String)) (k v : String) : List (String × String) :=
  if di.any (fun p => p.1 == k) then
    di.map (fun p => if p.1 == k then (k, v) else p)
  else di ++ [(k, v)]

/-- One iteration of the `for element in keys` loop of `_read_device_info`,
acting on the device-info mapping. -/
def processElement (di : List (String × String)) (e : PageElement) :
    List (String × String) :=
  let text := elementKey e
  if text ≠ "" ∧ text ∈ deviceInfoKeys then
    match e.nextSibling with
    | some (.textNode s) =>
        if s ≠ "" then upsert di text (pyStrip s)
        else
          match e.nextSiblingTag with
          | some sib =>
              if sib.truthy && !sib.hasBold then upsert di text sib.text else di
          | none => di
    | _ =>
        match e.nextSiblingTag with
        | some sib =>
            if sib.truthy && !sib.hasBold then upsert di text sib.text else di
        | none => di
  else di

/-- `MaxStorageClient._read_device_info`: fold the loop over all candidate
elements of the page, then raise `DataParserError("Failed to parse device
info")` if the (accumulated) device-info mapping is empty.  Returns the new
mapping together with the outcome, since the mapping is mutated even when
the call fails. -/
def read_device_info (di : List (String × String)) (elements : List PageElement) :
    List (String × String) × Except ClientError Unit :=
  let di2 := elements.foldl processElement di
  if di2 = [] then
    (di2, .error (.dataParserError "Failed to parse device info"))
  else (di2, .ok ())

/-- The mutable attributes of `MaxStorageClient`. -/
structure ClientState where
  base_url : String
  device_info : List (String × String)
  mac : Option String
  last_auth_time : Option ℤ
deriving DecidableEq, Repr

/-- `self.TOKEN_EXPIRY = 600  # 10 minutes`. -/
def TOKEN_EXPIRY : ℤ := 600

/-- `self.data_url = f"http://{base_url}/shared/energycontrolfunctions.php"`. -/
def data_url (st : ClientState) : String :=
  "http://" ++ st.base_url ++ "/shared/energycontrolfunctions.php"

/-- `MaxStorageClient.is_token_valid`:
`last_auth_time is not None and time.time() < last_auth_time + TOKEN_EXPIRY`. -/
def is_token_valid (now : ℤ) (st : ClientState) : Bool :=
  match st.last_auth_time with
  | none => false
  | some t => decide (now < t + TOKEN_EXPIRY)

/-- The response to the login POST: its HTTP status, and the `b`/`div`
elements of its HTML body. -/
structure LoginResponse where
  status : Nat
  elements : List PageElement
deriving DecidableEq, Repr

/-- `MaxStorageClient.authenticate`: on status 200, record the
authentication timestamp and then parse the device info (which may raise
`DataParserError`); on any other status raise `AuthenticationFailedError`. -/
def authenticate (st : ClientState) (now : ℤ) (resp : LoginResponse) :
    ClientState × Except ClientError Unit :=
  if resp.status = 200 then
    let r := read_device_info st.device_info resp.elements
    ({ st with last_auth_time := some now, device_info := r.1 }, r.2)
  else
    (st, .error (.authenticationFailedError
      ("Authentication Failed with status code " ++ toString resp.status)))

/-- The network requests a call issues, in order. -/
inductive NetEvent
  | authAttempt
  | dataRequest
deriving DecidableEq, Repr, BEq

/-- `MaxStorageClient.ensure_authenticated`: authenticate iff the token is
not valid. -/
def ensure_authenticated (st : ClientState) (now : ℤ) (resp : LoginResponse) :
    ClientState × Except ClientError Unit × List NetEvent :=
  if is_token_valid now st then (st, .ok (), [])
  else
    let r := authenticate st now resp
    (r.1, r.2, [.authAttempt])

/-- The parsed JSON snapshot returned by the data endpoint.  Only the
`Relais` section (parallel name/value sequences) is modelled, since it is
the only part of the snapshot the verified code inspects; the snapshot is
otherwise passed through verbatim. -/
structure LiveData where
  relaisNames : List String
  relaisValues : List Bool
deriving DecidableEq, Repr

/-- The response to the data POST: its HTTP status and, when the body
parses as JSON, the parsed snapshot (`none` models an unparsable body). -/
structure DataResponse where
  status : Nat
  jsonBody : Option LiveData
deriving DecidableEq, Repr

/-- The environment of one `get_data` call: the login response that would
be received were authentication attempted, and the data-endpoint response
(`none` models `aiohttp.ClientConnectorError` on connecting). -/
structure GetDataEnv where
  loginResp : LoginResponse
  dataResp : Option DataResponse
deriving DecidableEq, Repr

/-- `MaxStorageClient.get_data`: ensure the session is authenticated, then
POST to the data endpoint; on status 200 return the parsed JSON body or
raise `ValueError` if it does not parse; on any other status raise
`HTTPError`; on connection failure raise `InvalidHostError`. -/
def get_data (st : ClientState) (now : ℤ) (env : GetDataEnv) :
    ClientState × Except ClientError LiveData × List NetEvent :=
  match ensure_authenticated st now env.loginResp with
  | (st2, .error e, tr) => (st2, .error e, tr)
  | (st2, .ok _, tr) =>
    match env.dataResp with
    | none =>
        (st2, .error (.invalidHostError ("Invalid host: " ++ data_url st2)),
         tr ++ [.dataRequest])
    | some resp =>
        if resp.status = 200 then
          match resp.jsonBody with
          | some j => (st2, .ok j, tr ++ [.dataRequest])
          | none =>
              (st2, .error (.valueError "Response not in JSON format"),
               tr ++ [.dataRequest])
        else
          (st2, .error (.httpError
            ("Failed to fetch data with status code " ++ toString resp.status)),
           tr ++ [.dataRequest])

/-- The environment of one `setup` call: the result of
`socket.gethostbyname` (`none` models `socket.gaierror`), the login
response, and the result of the ARP/MAC probe (`none` models a failed ping
or `arp`, or no MAC found in the output). -/
structure SetupEnv where
  ipResult : Option String
  loginResp : LoginResponse
  macResult : Option String
deriving DecidableEq, Repr

/-- `MaxStorageClient.setup`: resolve the host (raising `InvalidHostError`
on failure), authenticate, then store whatever the best-effort MAC probe
returned (`get_mac_address` returns `None` on any failure). -/
def setup (st : ClientState) (now : ℤ) (env : SetupEnv) :
    ClientState × Except ClientError Unit :=
  match env.ipResult with
  | none => (st, .error (.invalidHostError ("Invalid host: " ++ st.base_url)))
  | some _ip =>
    match authenticate st now env.loginResp with
    | (st2, .ok _) => ({ st2 with mac := env.macResult }, .ok ())
    | (st2, .error e) => (st2, .error e)

/-- `MaxStorageDataUpdateCoordinator._async_update_data`: return the
client's data, converting any client error into
`UpdateFailed(f"Error communicating with API: {e}")`. -/
def async_update_data (fetch : Except ClientError LiveData) :
    Except String LiveData :=
  match fetch with
  | .ok d => .ok d
  | .error e => .error ("Error communicating with API: " ++ clientErrorMsg e)

/-- The coordinator-owned state: the last known good snapshot and the
success flag of the most recent refresh. -/
structure CoordinatorState where
  lastGood : Option LiveData
  lastUpdateSuccess : Bool
deriving DecidableEq, Repr

/-- Modelled from the spec: the host framework's `DataUpdateCoordinator`
refresh loop is not part of this repository's sources (only
`_async_update_data` is).  Per the spec, a refresh that succeeds stores the
returned snapshot as the new last known good value and clears the failure
flag; a refresh that fails keeps the last known good snapshot, records the
failure, and emits one refresh-failed signal carrying the failure message. -/
def coordinatorRefresh (cs : CoordinatorState) (fetch : Except ClientError LiveData) :
    CoordinatorState × Option String :=
  match async_update_data fetch with
  | .ok d => ({ lastGood := some d, lastUpdateSuccess := true }, none)
  | .error msg => ({ cs with lastUpdateSuccess := false }, some msg)

/-- A relay binary-sensor entity produced by
`binary_sensor.async_setup_entry`: its index in the relay list and its
name. -/
structure RelaySensor where
  index : Nat
  name : String
deriving DecidableEq, Repr

/-- `binary_sensor.async_setup_entry`: `for index, name in enumerate(names):
if name: ... sensors.append(...)` — one entity per relay position with a
non-empty name. -/
def relayBinarySensors (data : LiveData) : List RelaySensor :=
  ((data.relaisNames.enum).filter (fun p => p.2 != "")).map
    (fun p => { index := p.1, name := p.2 })

/-- Whether a `get_data` outcome is a raised `DataParserError`. -/
def raisedDataParserError (r : Except ClientError LiveData) : Bool :=
  match r with
  | .error e => isDataParserError e
  | .ok _ => false

/-! ## Helper lemmas -/

theorem processElement_not_key (di : List (String × String)) (e : PageElement)
    (h : elementKey e ∉ deviceInfoKeys) : processElement di e = di := by
  simp only [processElement]
  rw [if_neg]
  rintro ⟨-, hmem⟩
  exact h hmem

theorem foldl_processElement_not_key (es : List PageElement)
    (di : List (String × String))
    (h : ∀ e ∈ es, elementKey e ∉ deviceInfoKeys) :
    es.foldl processElement di = di := by
  induction es generalizing di with
  | nil => rfl
  | cons e es ih =>
    rw [List.foldl_cons, processElement_not_key di e (h e (by simp)),
      ih di (fun x hx => h x (by simp [hx]))]

theorem ensure_authenticated_valid (st : ClientState) (now : ℤ)
    (resp : LoginResponse) (h : is_token_valid now st = true) :
    ensure_authenticated st now resp = (st, .ok (), []) := by
  unfold ensure_authenticated
  rw [h]
  simp

theorem ensure_authenticated_invalid (st : ClientState) (now : ℤ)
    (resp : LoginResponse) (h : is_token_valid now st = false) :
    ensure_authenticated st now resp =
      ((authenticate st now resp).1, (authenticate st now resp).2,
        [.authAttempt]) := by
  unfold ensure_authenticated
  rw [h]
  simp

theorem get_data_events (st : ClientState) (now : ℤ) (env : GetDataEnv) :
    (get_data st now env).2.2 = (ensure_authenticated st now env.loginResp).2.2 ∨
    (get_data st now env).2.2 =
      (ensure_authenticated st now env.loginResp).2.2 ++ [.dataRequest] := by
  unfold get_data
  rcases h : ensure_authenticated st now env.loginResp with ⟨st2, r, tr⟩
  cases r with
  | error e => left; rfl
  | ok u =>
    cases henv : env.dataResp with
    | none => right; rfl
    | some resp =>
      by_cases hs : resp.status = 200
      · cases hb : resp.jsonBody with
        | none => right; simp [hs, hb]
        | some j => right; simp [hs, hb]
      · right; simp [hs]

/-! ## Claim theorems -/

/-- C1: for every recorded authentication timestamp `t` and current time
`now`, `is_token_valid` returns `true` iff `now - t` is strictly less than
600 seconds; in particular it returns `false` when the session is exactly
600 seconds old. -/
theorem token_valid_iff_age_lt_600 (t now : ℤ) (bu : String)
    (di : List (String × String)) (m : Option String) :
    (is_token_valid now ⟨bu, di, m, some t⟩ = true ↔ now - t < 600) ∧
    is_token_valid (t + 600) ⟨bu, di, m, some t⟩ = false := by
  constructor
  · simp only [is_token_valid, TOKEN_EXPIRY, decide_eq_true_eq]
    omega
  · simp only [is_token_valid, TOKEN_EXPIRY, decide_eq_false_iff_not]
    omega

/-- C2: a `get_data` call made while the session is invalid issues exactly
one authentication attempt, and it comes before any data request (it is the
first network event of the call); a call made while the session is valid
issues no authentication attempt. -/
theorem get_data_single_reauth (st : ClientState) (now : ℤ) (env : GetDataEnv) :
    (is_token_valid now st = false →
      (get_data st now env).2.2.head? = some .authAttempt ∧
      (get_data st now env).2.2.count .authAttempt = 1) ∧
    (is_token_valid now st = true →
      (get_data st now env).2.2.count .authAttempt = 0) := by
  constructor
  · intro h
    have hshape := get_data_events st now env
    rw [ensure_authenticated_invalid st now env.loginResp h] at hshape
    simp only [] at hshape
    rcases hshape with h2 | h2 <;> rw [h2] <;> exact ⟨rfl, rfl⟩
  · intro h
    have hshape := get_data_events st now env
    rw [ensure_authenticated_valid st now env.loginResp h] at hshape
    simp only [] at hshape
    rcases hshape with h2 | h2 <;> rw [h2] <;> rfl

/-- C2 witness: with no recorded authentication timestamp the session is
invalid, and a concrete `get_data` call authenticates exactly once, before
its data request. -/
theorem get_data_single_reauth_witness :
    (get_data ⟨"h", [], none, none⟩ 0
        ⟨⟨200, [⟨"Ident", some (.textNode "X"), none⟩]⟩,
          some ⟨200, some ⟨[], []⟩⟩⟩).2.2.head? = some .authAttempt ∧
    (get_data ⟨"h", [], none, none⟩ 0
        ⟨⟨200, [⟨"Ident", some (.textNode "X"), none⟩]⟩,
          some ⟨200, some ⟨[], []⟩⟩⟩).2.2.count .authAttempt = 1 :=
  (get_data_single_reauth ⟨"h", [], none, none⟩ 0
    ⟨⟨200, [⟨"Ident", some (.textNode "X"), none⟩]⟩,
      some ⟨200, some ⟨[], []⟩⟩⟩).1 rfl

/-- C3 counterexample: a success-status login response whose body contains
none of the recognized identity keys does *not* make `authenticate` fail
when the Device Identity mapping is already populated from an earlier
authentication: the call succeeds (the mapping, although unchanged, is
non-empty, so `_read_device_info` does not raise). -/
theorem authenticate_keyless_counterexample :
    (authenticate ⟨"host", [("Ident", "X")], none, none⟩ 0 ⟨200, []⟩).2
        = .ok () ∧
    (authenticate ⟨"host", [("Ident", "X")], none, none⟩ 0
        ⟨200, []⟩).1.device_info = [("Ident", "X")] :=
  ⟨rfl, rfl⟩

/-- C3 (amended): for every success-status login response whose body
contains none of the recognized identity keys, *when the Device Identity
mapping is empty before the call* (as on a first authentication),
`authenticate` fails with `DataParserError` and the mapping stays empty
(unchanged). -/
theorem authenticate_keyless_fails_on_empty (st : ClientState) (now : ℤ)
    (resp : LoginResponse) (hdi : st.device_info = [])
    (h200 : resp.status = 200)
    (hkeys : ∀ e ∈ resp.elements, elementKey e ∉ deviceInfoKeys) :
    (authenticate st now resp).2 =
      .error (.dataParserError "Failed to parse device info") ∧
    (authenticate st now resp).1.device_info = st.device_info := by
  unfold authenticate
  rw [if_pos h200]
  unfold read_device_info
  rw [foldl_processElement_not_key _ _ hkeys, hdi]
  simp

/-- C3 witness: a concrete first authentication against a keyless body
fails with `DataParserError`. -/
theorem authenticate_keyless_fails_on_empty_witness :
    (authenticate ⟨"h", [], none, none⟩ 0 ⟨200, []⟩).2 =
      .error (.dataParserError "Failed to parse device info") :=
  (authenticate_keyless_fails_on_empty ⟨"h", [], none, none⟩ 0 ⟨200, []⟩
    rfl rfl (by simp)).1

/-- C4 counterexample: a parse that finds only the `Ident` key is
considered successful although the serial, firmware-version and
hardware-version keys are all absent from the resulting Device Identity
mapping. -/
theorem device_info_partial_parse_counterexample :
    (authenticate ⟨"host", [], none, none⟩ 0
        ⟨200, [⟨"Ident:", some (.textNode " X123 "), none⟩]⟩).2 = .ok () ∧
    List.lookup "MasterController-Nummer"
      (authenticate ⟨"host", [], none, none⟩ 0
        ⟨200, [⟨"Ident:", some (.textNode " X123 "), none⟩]⟩).1.device_info
      = none ∧
    List.lookup "Firmware-Version"
      (authenticate ⟨"host", [], none, none⟩ 0
        ⟨200, [⟨"Ident:", some (.textNode " X123 "), none⟩]⟩).1.device_info
      = none ∧
    List.lookup "Hardware-Version"
      (authenticate ⟨"host", [], none, none⟩ 0
        ⟨200, [⟨"Ident:", some (.textNode " X123 "), none⟩]⟩).1.device_info
      = none :=
  ⟨rfl, rfl, rfl, rfl⟩

/-- C4 (amended): a device-identity parse is considered successful iff it
leaves the Device Identity mapping non-empty: after a successful parse at
least one recognized key is present (individual fixed keys may still be
absent), and a parse that leaves the mapping empty fails with
`DataParserError`. -/
theorem read_device_info_success_iff_nonempty (di : List (String × String))
    (es : List PageElement) :
    ((read_device_info di es).2 = .ok () ↔ (read_device_info di es).1 ≠ []) ∧
    ((read_device_info di es).1 = [] →
      (read_device_info di es).2 =
        .error (.dataParserError "Failed to parse device info")) := by
  unfold read_device_info
  by_cases h : es.foldl processElement di = [] <;> simp [h]

/-- C4 witness: a concrete parse of an empty page over an empty mapping
leaves the mapping empty and fails with `DataParserError`, while a parse
that stores one key leaves the mapping non-empty and therefore succeeds. -/
theorem read_device_info_success_iff_nonempty_witness :
    (read_device_info [] []).2 =
      .error (.dataParserError "Failed to parse device info") ∧
    (read_device_info [] [⟨"Ident", some (.textNode "X"), none⟩]).2 = .ok () :=
  ⟨(read_device_info_success_iff_nonempty [] []).2 rfl,
   (read_device_info_success_iff_nonempty []
      [⟨"Ident", some (.textNode "X"), none⟩]).1.mpr (by decide)⟩

/-- C5 counterexample: the success test in `get_data` is `status == 200`
exactly, not "any 2xx": a 204 response from the data endpoint with a
parsable JSON body does not succeed — it raises `HTTPError`
(`RemoteServiceError`). -/
theorem get_data_2xx_counterexample :
    (get_data ⟨"host", [("Ident", "X")], none, some 0⟩ 0
        ⟨⟨200, []⟩, some ⟨204, some ⟨["R1"], [true]⟩⟩⟩).2.1
      = .error (.httpError "Failed to fetch data with status code 204") ∧
    (get_data ⟨"host", [("Ident", "X")], none, some 0⟩ 0
        ⟨⟨200, []⟩, some ⟨204, some ⟨["R1"], [true]⟩⟩⟩).2.1
      ≠ .ok ⟨["R1"], [true]⟩ :=
  ⟨rfl, by decide⟩

/-- C5 (amended): for every data-endpoint response with status other than
200 (including non-200 2xx statuses), `get_data` fails with `HTTPError`
(`RemoteServiceError`); for every response with status exactly 200 and a
parsable JSON body, it succeeds and returns the parsed body. -/
theorem get_data_status_dispatch (st : ClientState) (now : ℤ)
    (env : GetDataEnv) (resp : DataResponse)
    (hvalid : is_token_valid now st = true)
    (hresp : env.dataResp = some resp) :
    (resp.status ≠ 200 →
      (get_data st now env).2.1 = .error (.httpError
        ("Failed to fetch data with status code " ++ toString resp.status))) ∧
    (∀ j, resp.status = 200 → resp.jsonBody = some j →
      (get_data st now env).2.1 = .ok j) := by
  constructor
  · intro hne
    unfold get_data
    rw [ensure_authenticated_valid st now env.loginResp hvalid, hresp]
    simp [hne]
  · intro j h200 hbody
    unfold get_data
    rw [ensure_authenticated_valid st now env.loginResp hvalid, hresp]
    simp [h200, hbody]

/-- C5 witness: a concrete 200 response with a parsable body succeeds and
returns the parsed snapshot, and a concrete 503 response fails with
`HTTPError`. -/
theorem get_data_status_dispatch_witness :
    (get_data ⟨"h", [("Ident", "X")], none, some 0⟩ 0
        ⟨⟨200, []⟩, some ⟨200, some ⟨["R1"], [true]⟩⟩⟩).2.1
      = .ok ⟨["R1"], [true]⟩ ∧
    (get_data ⟨"h", [("Ident", "X")], none, some 0⟩ 0
        ⟨⟨200, []⟩, some ⟨503, some ⟨["R1"], [true]⟩⟩⟩).2.1
      = .error (.httpError "Failed to fetch data with status code 503") :=
  ⟨(get_data_status_dispatch ⟨"h", [("Ident", "X")], none, some 0⟩ 0
      ⟨⟨200, []⟩, some ⟨200, some ⟨["R1"], [true]⟩⟩⟩ ⟨200, some ⟨["R1"], [true]⟩⟩
      (by decide) rfl).2 ⟨["R1"], [true]⟩ rfl rfl,
   (get_data_status_dispatch ⟨"h", [("Ident", "X")], none, some 0⟩ 0
      ⟨⟨200, []⟩, some ⟨503, some ⟨["R1"], [true]⟩⟩⟩ ⟨503, some ⟨["R1"], [true]⟩⟩
      (by decide) rfl).1 (by decide)⟩

/-- C6 counterexample: a 200-status data response whose body does not parse
as JSON makes `get_data` raise Python's builtin `ValueError`
("Response not in JSON format: ..."), which is not an instance of the
integration's `DataParserError` class. -/
theorem get_data_unparsable_counterexample :
    (get_data ⟨"host", [("Ident", "X")], none, some 0⟩ 0
        ⟨⟨200, []⟩, some ⟨200, none⟩⟩).2.1
      = .error (.valueError "Response not in JSON format") ∧
    raisedDataParserError
      ((get_data ⟨"host", [("Ident", "X")], none, some 0⟩ 0
        ⟨⟨200, []⟩, some ⟨200, none⟩⟩).2.1) = false :=
  ⟨rfl, rfl⟩

/-- C6 (amended): for every success-status (200) data-endpoint response
whose body cannot be parsed as JSON, `get_data` fails with a builtin
`ValueError` ("Response not in JSON format: ..."), not with the
integration's `DataParserError` type. -/
theorem get_data_unparsable_raises_valueerror (st : ClientState) (now : ℤ)
    (env : GetDataEnv) (resp : DataResponse)
    (hvalid : is_token_valid now st = true)
    (hresp : env.dataResp = some resp)
    (h200 : resp.status = 200) (hbody : resp.jsonBody = none) :
    (get_data st now env).2.1 =
      .error (.valueError "Response not in JSON format") ∧
    raisedDataParserError (get_data st now env).2.1 = false := by
  have hres : (get_data st now env).2.1 =
      .error (.valueError "Response not in JSON format") := by
    unfold get_data
    rw [ensure_authenticated_valid st now env.loginResp hvalid, hresp]
    simp [h200, hbody]
  exact ⟨hres, by rw [hres]; rfl⟩

/-- C6 witness: a concrete unparsable 200 response raises `ValueError`. -/
theorem get_data_unparsable_raises_valueerror_witness :
    (get_data ⟨"h", [("Ident", "X")], none, some 0⟩ 0
        ⟨⟨200, []⟩, some ⟨200, none⟩⟩).2.1
      = .error (.valueError "Response not in JSON format") :=
  (get_data_unparsable_raises_valueerror ⟨"h", [("Ident", "X")], none, some 0⟩
    0 ⟨⟨200, []⟩, some ⟨200, none⟩⟩ ⟨200, none⟩ (by decide) rfl rfl rfl).1

/-- C7: every client error is converted by the coordinator's update into a
single refresh-failed signal whose message is the original error's message
prefixed with "Error communicating with API: " (so the original message is
preserved inside it), and the last known good snapshot is unchanged. -/
theorem coordinator_failure_preserves_snapshot (cs : CoordinatorState)
    (e : ClientError) :
    (coordinatorRefresh cs (.error e)).1.lastGood = cs.lastGood ∧
    (coordinatorRefresh cs (.error e)).2 =
      some ("Error communicating with API: " ++ clientErrorMsg e) ∧
    (coordinatorRefresh cs (.error e)).1.lastUpdateSuccess = false :=
  ⟨rfl, rfl, rfl⟩

/-- C9: if host resolution fails, `setup` fails with `InvalidHostError`;
if resolution succeeds, authentication succeeds, and the best-effort MAC
discovery fails, `setup` still succeeds and leaves the MAC unset. -/
theorem setup_host_resolution_and_mac (st : ClientState) (now : ℤ)
    (env : SetupEnv) :
    (env.ipResult = none →
      (setup st now env).2 =
        .error (.invalidHostError ("Invalid host: " ++ st.base_url))) ∧
    (∀ ip, env.ipResult = some ip →
      (authenticate st now env.loginResp).2 = .ok () →
      env.macResult = none →
      (setup st now env).2 = .ok () ∧ (setup st now env).1.mac = none) := by
  constructor
  · intro h
    unfold setup
    rw [h]
  · intro ip hip hauth hmac
    unfold setup
    rw [hip]
    rcases hA : authenticate st now env.loginResp with ⟨st2, r⟩
    rw [hA] at hauth
    simp only [] at hauth
    subst hauth
    simp [hmac]

/-- C9 witness: a concrete setup whose host resolves, whose login succeeds
and whose MAC probe fails succeeds with the MAC left unset; one whose host
does not resolve fails with `InvalidHostError`. -/
theorem setup_host_resolution_and_mac_witness :
    ((setup ⟨"h", [], none, none⟩ 0
        ⟨some "10.0.0.2", ⟨200, [⟨"Ident", some (.textNode "X"), none⟩]⟩,
          none⟩).2 = .ok () ∧
      (setup ⟨"h", [], none, none⟩ 0
        ⟨some "10.0.0.2", ⟨200, [⟨"Ident", some (.textNode "X"), none⟩]⟩,
          none⟩).1.mac = none) ∧
    (setup ⟨"h", [], none, none⟩ 0
        ⟨none, ⟨200, []⟩, none⟩).2 =
      .error (.invalidHostError "Invalid host: h") :=
  ⟨(setup_host_resolution_and_mac ⟨"h", [], none, none⟩ 0
      ⟨some "10.0.0.2", ⟨200, [⟨"Ident", some (.textNode "X"), none⟩]⟩,
        none⟩).2 "10.0.0.2" rfl rfl rfl,
   (setup_host_resolution_and_mac ⟨"h", [], none, none⟩ 0
      ⟨none, ⟨200, []⟩, none⟩).1 rfl⟩

/-- C10: when `authenticate` receives a 200 login response and then fails
with `DataParserError` while parsing the identity page, the authentication
timestamp has already been recorded: any `is_token_valid` call within the
expiry window afterwards returns `true`, and a `get_data` call within the
window performs no re-authentication, even though `authenticate` reported
failure. -/
theorem auth_parse_failure_keeps_token (st : ClientState) (now : ℤ)
    (resp : LoginResponse) (env : GetDataEnv)
    (h200 : resp.status = 200)
    (_hfail : (authenticate st now resp).2 =
      .error (.dataParserError "Failed to parse device info")) :
    (authenticate st now resp).1.last_auth_time = some now ∧
    ∀ now2 : ℤ, now2 < now + 600 →
      is_token_valid now2 (authenticate st now resp).1 = true ∧
      (get_data (authenticate st now resp).1 now2 env).2.2.count
        .authAttempt = 0 := by
  have h1 : (authenticate st now resp).1.last_auth_time = some now := by
    unfold authenticate
    rw [if_pos h200]
  refine ⟨h1, fun now2 hlt => ?_⟩
  have hv : is_token_valid now2 (authenticate st now resp).1 = true := by
    unfold is_token_valid
    rw [h1]
    simpa [TOKEN_EXPIRY] using hlt
  refine ⟨hv, ?_⟩
  have hshape := get_data_events (authenticate st now resp).1 now2 env
  rw [ensure_authenticated_valid _ _ _ hv] at hshape
  simp only [] at hshape
  rcases hshape with h2 | h2 <;> rw [h2] <;> rfl

/-- C10 witness: a concrete 200 login response with a keyless body makes
`authenticate` fail with `DataParserError`, yet immediately afterwards the
token is valid and a `get_data` call performs no authentication attempt. -/
theorem auth_parse_failure_keeps_token_witness :
    is_token_valid 0 (authenticate ⟨"h", [], none, none⟩ 0 ⟨200, []⟩).1
      = true ∧
    (get_data (authenticate ⟨"h", [], none, none⟩ 0 ⟨200, []⟩).1 0
      ⟨⟨200, []⟩, some ⟨200, some ⟨[], []⟩⟩⟩).2.2.count .authAttempt = 0 :=
  (auth_parse_failure_keeps_token ⟨"h", [], none, none⟩ 0 ⟨200, []⟩
    ⟨⟨200, []⟩, some ⟨200, some ⟨[], []⟩⟩⟩ rfl rfl).2 0 (by decide)

/-- C8: for every snapshot whose relay section is a pair of equal-length
name and value sequences, a relay entity is produced for index `i` iff
`names[i]` is non-empty; positions with an empty name yield no entity. -/
theorem relay_entity_iff_nonempty_name (data : LiveData) (i : Nat)
    (_hlen : data.relaisNames.length = data.relaisValues.length)
    (hi : i < data.relaisNames.length) :
    (∃ s ∈ relayBinarySensors data, s.index = i) ↔
      data.relaisNames.get ⟨i, hi⟩ ≠ "" := by
  unfold relayBinarySensors
  constructor
  · rintro ⟨s, hs, hidx⟩
    simp only [List.mem_map, List.mem_filter] at hs
    obtain ⟨p, ⟨hpe, hpne⟩, hsp⟩ := hs
    rw [List.mem_enum_iff_getElem?] at hpe
    subst hsp
    simp only [] at hidx
    subst hidx
    show data.relaisNames[p.1] ≠ ""
    have h2 := List.getElem?_eq_getElem hi
    rw [hpe] at h2
    injection h2 with h3
    have hpne2 : p.2 ≠ "" := by simpa using hpne
    exact h3 ▸ hpne2
  · intro hne
    refine ⟨⟨i, data.relaisNames.get ⟨i, hi⟩⟩, ?_, rfl⟩
    simp only [List.mem_map, List.mem_filter]
    refine ⟨(i, data.relaisNames.get ⟨i, hi⟩), ⟨?_, ?_⟩, rfl⟩
    · rw [List.mem_enum_iff_getElem?]
      simp [List.getElem?_eq_getElem hi]
    · simpa using hne

/-- C8 witness: a concrete snapshot with relay names `["A", ""]` produces
an entity at index 0 and none at index 1. -/
theorem relay_entity_iff_nonempty_name_witness :
    (∃ s ∈ relayBinarySensors ⟨["A", ""], [true, false]⟩, s.index = 0) ∧
    ¬ (∃ s ∈ relayBinarySensors ⟨["A", ""], [true, false]⟩, s.index = 1) :=
  ⟨(relay_entity_iff_nonempty_name ⟨["A", ""], [true, false]⟩ 0 (by decide)
      (by decide)).mpr (by decide),
   fun h => ((relay_entity_iff_nonempty_name ⟨["A", ""], [true, false]⟩ 1
      (by decide) (by decide)).mp h) (by decide)⟩

end MaxStorage
